import Mathlib

set_option maxRecDepth 100000

/-!
Verification of the AIssue-BE-Flask repository-indexing and semantic-search
core against its natural-language specification.

The development shallowly embeds the policy layer of
app/services/faiss_service.py (index build, load, search with threshold
relaxation), the HTTP outcome mapping of app/api/repository_api.py and
app/services/repository_service.py, the index-loading path of
app/services/issue_analysis_service.py, and — where the source snapshot does
not contain the module — the indexing job state machine described by the
specification (sections 4.4 and 5).

Python exceptions are embedded as an explicit error type threaded through
Except; collaborator calls that can fail (the embedding provider, the vector
store engine, the filesystem) are parameters of the embedded functions, so a
theorem quantifying over them covers every behaviour of the collaborator.
Vector components and similarity scores are embedded as rationals; the
floating-point cosine arithmetic of cosine_similarity is abstracted as a
similarity-function parameter, since IEEE float rounding is not exactly
representable and no claim below depends on the numeric value of a score,
only on the order structure of the scores the scan produces.
-/

/-- Exceptions of app/core/exceptions.py that the embedded code can raise:
EmbeddingError, IndexingError, and any other Exception. All three are
subclasses of Python's Exception, so an `except Exception` clause catches
each of them. -/
inductive PyExc where
  | embedding (msg : String)
  | indexing (msg : String)
  | other (msg : String)
deriving DecidableEq

/-- A langchain Document: page content plus metadata (string-keyed mapping,
embedded as an association list). -/
structure Document where
  page_content : String
  metadata : List (String × String)
deriving DecidableEq

/-- State of a loaded FAISS vector store as read by search_documents:
truthiness of vector_store.index, index.ntotal, the index_to_docstore_id
mapping, the docstore._dict mapping, and index.reconstruct.
A reconstruct result of none embeds `index.reconstruct(idx)` raising, which
the source catches per entry and skips (faiss_service.py lines 359-368). -/
structure VectorStore where
  indexPresent : Bool
  ntotal : Nat
  index_to_docstore_id : Nat → Option String
  docstore : String → Option Document
  reconstruct : Nat → Option (List ℚ)

/-- Scan loop of search_documents (faiss_service.py lines 344-371): for each
index position, look up the docstore id (skip when missing), the document
(skip when missing), reconstruct the vector (skip when reconstruction
raises), then score it against the query with the similarity function.
A failure of the similarity computation is not caught inside the loop and
propagates. Pairs are accumulated in index order. -/
def scanVectors (vs : VectorStore) (q : List ℚ)
    (simf : List ℚ → List ℚ → Except PyExc ℚ) :
    List Nat → Except PyExc (List (Document × ℚ))
  | [] => .ok []
  | idx :: rest =>
    match vs.index_to_docstore_id idx with
    | none => scanVectors vs q simf rest
    | some docstore_id =>
      match vs.docstore docstore_id with
      | none => scanVectors vs q simf rest
      | some doc =>
        match vs.reconstruct idx with
        | none => scanVectors vs q simf rest
        | some v =>
          match simf q v with
          | .error e => .error e
          | .ok s =>
            match scanVectors vs q simf rest with
            | .error e => .error e
            | .ok tail => .ok ((doc, s) :: tail)

/-- Stable descending insertion: x is placed before the first element whose
score is less than or equal to x's, so among equal scores earlier elements
stay first. This is exactly the observable behaviour of Python's stable
`list.sort(key=lambda x: x[1], reverse=True)`. -/
def insertDesc (x : Document × ℚ) : List (Document × ℚ) → List (Document × ℚ)
  | [] => [x]
  | y :: ys => if x.2 < y.2 then y :: insertDesc x ys else x :: y :: ys

/-- Stable sort descending by score, embedding
`doc_score_pairs.sort(key=lambda x: x[1], reverse=True)`
(faiss_service.py line 373). -/
def sortDesc : List (Document × ℚ) → List (Document × ℚ)
  | [] => []
  | x :: xs => insertDesc x (sortDesc xs)

/-- The fixed fallback similarity threshold 0.1 of the relaxation policy
(faiss_service.py lines 384-390). -/
def relaxThreshold : ℚ := mkRat 1 10

/-- Ranking tail of search_documents (faiss_service.py lines 373-396):
sort all pairs descending by score, take the first top_k, filter by the
caller's threshold, and if that yields nothing while top_k was non-empty and
the threshold exceeds 0.1, refilter the same top_k prefix once at 0.1. -/
def rankAndFilter (pairs : List (Document × ℚ)) (top_k : Nat) (thr : ℚ) :
    List (Document × ℚ) :=
  let top_results := (sortDesc pairs).take top_k
  let filtered_results := top_results.filter (fun p => decide (thr ≤ p.2))
  if filtered_results = [] ∧ relaxThreshold < thr ∧ top_results ≠ [] then
    top_results.filter (fun p => decide (relaxThreshold ≤ p.2))
  else
    filtered_results

/-- Body of the try block of search_documents (faiss_service.py lines
331-396): embed the query (a failure propagates to the except clauses),
return [] when the store's index is absent or holds zero vectors, otherwise
scan, rank and filter. The embed_query call is embedded as its result, an
Except value covering both outcomes of the provider. -/
def searchBody (vs : VectorStore) (embedq : Except PyExc (List ℚ))
    (simf : List ℚ → List ℚ → Except PyExc ℚ)
    (top_k : Nat) (thr : ℚ) : Except PyExc (List (Document × ℚ)) :=
  match embedq with
  | .error e => .error e
  | .ok q =>
    if vs.indexPresent = false ∨ vs.ntotal = 0 then .ok []
    else
      match scanVectors vs q simf (List.range vs.ntotal) with
      | .error e => .error e
      | .ok pairs => .ok (rankAndFilter pairs top_k thr)

/-- search_documents (faiss_service.py lines 305-403): a missing vector
store yields []; the try body runs; `except EmbeddingError: raise`
re-raises an EmbeddingError unchanged; the final `except Exception` clause
turns every other exception into the empty result list. -/
def search_documents (vector_store : Option VectorStore)
    (embedq : Except PyExc (List ℚ))
    (simf : List ℚ → List ℚ → Except PyExc ℚ)
    (top_k : Nat) (similarity_threshold : ℚ) :
    Except PyExc (List (Document × ℚ)) :=
  match vector_store with
  | none => .ok []
  | some vs =>
    match searchBody vs embedq simf top_k similarity_threshold with
    | .ok r => .ok r
    | .error (.embedding m) => .error (.embedding m)
    | .error (.indexing _) => .ok []
    | .error (.other _) => .ok []

/-- Substring containment test over strings (Python's `in` on str). -/
def strContains (s pat : String) : Bool :=
  (List.range (s.length + 1)).any (fun i => pat.data.isPrefixOf (s.data.drop i))

/-- The marker checked by _generate_embeddings before enriching an
EmbeddingError message (faiss_service.py line 157). -/
def solutionMarker : String := "해결 방법:"

/-- Text appended to an EmbeddingError message lacking the solution marker
(faiss_service.py lines 159-162). -/
def extraSolutionText : String :=
  "\n\n추가 해결 방법:\n1. Flask 서버를 재시작해보세요.\n2. .env 파일의 API 키가 올바른지 확인하세요.\n3. 네트워크 연결을 확인하세요."

/-- Message enrichment of the `except EmbeddingError` clause of
_generate_embeddings (faiss_service.py lines 151-164). -/
def enrichEmbeddingMessage (m : String) : String :=
  if strContains m solutionMarker then m else m ++ extraSolutionText

/-- Leading text of the diagnostic built by the `except Exception` clause of
_generate_embeddings (faiss_service.py line 171). -/
def unexpectedEmbedIntro : String :=
  "임베딩 생성 중 예상치 못한 오류가 발생했습니다: "

/-- Fixed tail of the diagnostic built by the `except Exception` clause of
_generate_embeddings: the newline-joined error_details lines after the first
(faiss_service.py lines 170-184). -/
def unexpectedEmbedTail : String :=
  "\n\n가능한 원인:\n1. 네트워크 연결 문제\n2. Gemini API 서비스 장애\n3. API 키 권한 문제\n4. 요청 데이터 형식 문제\n\n해결 방법:\n1. 네트워크 연결을 확인하세요.\n2. 잠시 후 다시 시도하세요.\n3. API 키가 유효하고 권한이 있는지 확인하세요.\n4. 문제가 지속되면 로그를 확인하세요."

/-- Full diagnostic message the `except Exception` clause of
_generate_embeddings wraps around the original error text. -/
def unexpectedEmbeddingMessage (m : String) : String :=
  unexpectedEmbedIntro ++ m ++ unexpectedEmbedTail

/-- Message raised when embed_documents returns a value that is not a
two-element tuple (faiss_service.py line 149). -/
def badFormatMessage : String := "임베딩 결과 형식이 올바르지 않습니다."

/-- Embedding of _generate_embeddings (faiss_service.py lines 121-186). Its call to
embeddings.embed_documents is embedded as the call's outcome: an exception,
or a returned value which is either a well-formed pair
(embeddings list, failed original indices) or (none) a value of unexpected
shape, which makes the function raise EmbeddingError itself. The except
clauses re-raise everything as EmbeddingError: an EmbeddingError keeps (and
possibly enriches) its message, any other exception is wrapped in the fixed
diagnostic text. -/
def generateEmbeddings
    (embed_documents_result : Except PyExc (Option (List (List ℚ) × List Nat))) :
    Except PyExc (List (List ℚ) × List Nat) :=
  match embed_documents_result with
  | .ok (some r) => .ok r
  | .ok none => .error (.embedding (enrichEmbeddingMessage badFormatMessage))
  | .error (.embedding m) => .error (.embedding (enrichEmbeddingMessage m))
  | .error (.indexing m) => .error (.embedding (unexpectedEmbeddingMessage m))
  | .error (.other m) => .error (.embedding (unexpectedEmbeddingMessage m))

/-- Embedding of _filter_successful_documents (faiss_service.py lines 188-201): keep the
documents whose original index is not in the failed-index set, in original
order. -/
def filterSuccessfulDocuments (documents : List Document)
    (failed_indices : List Nat) : List Document :=
  (documents.enum.filter (fun p => decide (p.1 ∉ failed_indices))).map (·.2)

/-- A built FAISS vector store as assembled by FAISS.from_embeddings:
the docstore entries in internal-id order and the stored vectors in the same
order. -/
structure BuiltStore where
  docs : List Document
  vectors : List (List ℚ)
deriving DecidableEq

/-- Modelled from the spec: FAISS.from_embeddings belongs to the external
vector-storage engine (langchain_community), not to this repository. Per
specification section 3, the VectorIndex pairs each internal id with one
vector and one docstore entry built from the supplied page content and
metadata, in input order; a missing metadata entry defaults to the empty
mapping. -/
def FAISSFromEmbeddings :
    List (String × List ℚ) → List (List (String × String)) → BuiltStore
  | [], _ => ⟨[], []⟩
  | (t, e) :: rest, [] =>
    let s := FAISSFromEmbeddings rest []
    ⟨⟨t, []⟩ :: s.docs, e :: s.vectors⟩
  | (t, e) :: rest, m :: ms =>
    let s := FAISSFromEmbeddings rest ms
    ⟨⟨t, m⟩ :: s.docs, e :: s.vectors⟩

/-- Embedding of _create_faiss_vector_store (faiss_service.py lines 203-237): zip the
documents' page contents with the embeddings, extract the metadata, and call
FAISS.from_embeddings. The engine call can itself raise (embedded as the
assembleOk flag); the except clause wraps any such failure in IndexingError. -/
def createFaissVectorStore (documents : List Document)
    (embeddings_data : List (List ℚ)) (assembleOk : Bool) :
    Except PyExc BuiltStore :=
  if assembleOk then
    let text_embedding_pairs :=
      (documents.zip embeddings_data).map (fun p => (p.1.page_content, p.2))
    let metadatas := documents.map (·.metadata)
    .ok (FAISSFromEmbeddings text_embedding_pairs metadatas)
  else
    .error (.indexing "벡터 스토어 생성 실패")

/-- Embedding of _save_index (faiss_service.py lines 239-259): persistence either
succeeds or raises IndexingError. -/
def saveIndex (saveOk : Bool) : Except PyExc Unit :=
  if saveOk then .ok () else .error (.indexing "인덱스 저장 실패")

/-- create_index_from_documents (faiss_service.py lines 45-95), the build
operation: an empty document batch returns None; otherwise embeddings are
generated (a failure there raises), an empty embedding list returns None,
the surviving documents are zipped with their embeddings into a vector store
which is persisted; the trailing `except Exception` clause catches every
exception raised inside the try block — the EmbeddingError of
_generate_embeddings included — and re-raises IndexingError. -/
def create_index_from_documents (documents : List Document)
    (embed_documents_result : Except PyExc (Option (List (List ℚ) × List Nat)))
    (assembleOk saveOk : Bool) (index_type : String) :
    Except PyExc (Option BuiltStore) :=
  if documents.isEmpty then .ok none
  else
    let body : Except PyExc (Option BuiltStore) :=
      match generateEmbeddings embed_documents_result with
      | .error e => .error e
      | .ok (embeddings_data, failed_indices) =>
        if embeddings_data.isEmpty then .ok none
        else
          match createFaissVectorStore
              (filterSuccessfulDocuments documents failed_indices)
              embeddings_data assembleOk with
          | .error e => .error e
          | .ok vector_store =>
            match saveIndex saveOk with
            | .error e => .error e
            | .ok _ => .ok (some vector_store)
    match body with
    | .ok r => .ok r
    | .error _ => .error (.indexing (index_type ++ " 인덱스 생성 실패"))

/-- Tests whether a build outcome is a raised EmbeddingError. -/
def isEmbeddingErrorResult : Except PyExc (Option BuiltStore) → Bool
  | .error (.embedding _) => true
  | _ => false

/-- load_index (faiss_service.py lines 97-119): a missing path returns None;
otherwise FAISS.load_local runs and any exception it raises (corrupt or
unreadable on-disk state) is caught, returning None. The Option return type
embeds that no exception escapes load_index. -/
def load_index (path_exists : Bool)
    (load_local_result : Except PyExc BuiltStore) : Option BuiltStore :=
  if path_exists then
    match load_local_result with
    | .ok store => some store
    | .error _ => none
  else none

/-- HTTP-level outcome of an API call: status code plus optional error code. -/
structure ApiOutcome where
  status_code : Nat
  error_code : Option String
deriving DecidableEq

/-- Status-endpoint outcome mapping of
RepositoryService.get_repository_status (repository_service.py lines
205-247): not_indexed yields 404 NOT_FOUND, failed yields 409 with the
record's error code (INDEXING_FAILED by default), pending and indexing yield
202, completed yields 200, anything else yields 500 UNKNOWN_STATUS. -/
def getRepositoryStatusOutcome (status : String)
    (record_error_code : Option String) : ApiOutcome :=
  if status = "not_indexed" then ⟨404, some "NOT_FOUND"⟩
  else if status = "failed" then
    ⟨409, some (record_error_code.getD "INDEXING_FAILED")⟩
  else if status = "pending" ∨ status = "indexing" then ⟨202, none⟩
  else if status = "completed" then ⟨200, none⟩
  else ⟨500, some "UNKNOWN_STATUS"⟩

/-- Modelled from the spec: SearchService.search_repository is not in this
source snapshot (only its caller RepositoryService.search_repository is).
Specification section 4.5: the orchestrator resolves the repository key to
an index location, loads via the Vector Index Store, fails with
INDEX_NOT_FOUND when the load yields None, and never triggers on-demand
indexing. The call is embedded as a function of the load result; the Bool
component records whether an indexing pipeline was started by the call. -/
def searchRepositoryCall (load_result : Option BuiltStore) :
    Except String BuiltStore × Bool :=
  match load_result with
  | none => (.error "INDEX_NOT_FOUND", false)
  | some store => (.ok store, false)

/-- Outcome mapping of RepositorySearch.post (repository_api.py lines
291-346): a successful search maps to 200; a ServiceError maps to 404
exactly when its error code is INDEX_NOT_FOUND and to 500 otherwise, with
the error code reported. -/
def repositorySearchPost (search_result : Except String BuiltStore) :
    ApiOutcome :=
  match search_result with
  | .ok _ => ⟨200, none⟩
  | .error code => ⟨if code = "INDEX_NOT_FOUND" then 404 else 500, some code⟩

/-- Embedding of _load_vector_stores (issue_analysis_service.py lines 149-177): load the
code index; None makes the whole result None, otherwise the store is
returned under the "code" key. -/
def loadVectorStores (code_store : Option BuiltStore) :
    Option (List (String × BuiltStore)) :=
  match code_store with
  | none => none
  | some store => some [("code", store)]

/-- Status-code skeleton of IssueAnalysisService.analyze_issue
(issue_analysis_service.py lines 92-116): when _load_vector_stores yields
None the request answers 404 without analysing; otherwise the analysis runs
and its own status code (200 on success) is returned. -/
def analyzeIssueStatusCode (code_store : Option BuiltStore)
    (analysis_code : Nat) : Nat :=
  match loadVectorStores code_store with
  | none => 404
  | some _ => analysis_code

/-- Lifecycle states of an indexing job (specification section 4.4). -/
inductive JobStatus where
  | pending
  | indexing
  | completed
  | failed
deriving DecidableEq

/-- A job record of the indexing state machine, reduced to the fields the
idempotence claim observes. -/
structure JobRecord where
  status : JobStatus
  progress : Nat
deriving DecidableEq

/-- State of the indexing job store: the per-repository records, plus a log
of every pipeline launch (one entry per launched pipeline, newest first). -/
structure MachineState where
  jobs : List (String × JobRecord)
  started_pipelines : List String
deriving DecidableEq

/-- What a requestIndexing call reports back to the caller. -/
structure RequestResult where
  record : JobRecord
  is_new_request : Bool
deriving DecidableEq

/-- Record lookup by repository key. -/
def lookupJob (s : MachineState) (key : String) : Option JobRecord :=
  (s.jobs.find? (fun p => decide (p.1 = key))).map (·.2)

/-- Number of pipelines launched so far for one repository key. -/
def startedCount (s : MachineState) (key : String) : Nat :=
  (s.started_pipelines.filter (fun k => decide (k = key))).length

/-- Modelled from the spec: IndexingService.prepare_and_start_indexing and
StatusService are not in this source snapshot (only their caller
RepositoryService.process_index_request is). Specification sections 4.4 and
5: the check-and-create step is atomic per repository key, so racing
requests interleave as a sequence of these atomic steps. No record (or a
failed record, which a fresh request restarts) creates the job in pending,
reports is_new_request true and launches one background pipeline; a record
in pending or indexing — and likewise completed — is returned unchanged with
is_new_request false and no pipeline is launched. -/
def requestIndexing (s : MachineState) (key : String) :
    MachineState × RequestResult :=
  match lookupJob s key with
  | none =>
    let r : JobRecord := ⟨.pending, 0⟩
    (⟨(key, r) :: s.jobs, key :: s.started_pipelines⟩, ⟨r, true⟩)
  | some r =>
    match r.status with
    | .pending => (s, ⟨r, false⟩)
    | .indexing => (s, ⟨r, false⟩)
    | .completed => (s, ⟨r, false⟩)
    | .failed =>
      let r2 : JobRecord := ⟨.pending, 0⟩
      (⟨(key, r2) :: s.jobs.filter (fun p => decide (p.1 ≠ key)),
        key :: s.started_pipelines⟩, ⟨r2, true⟩)

instance {ε α : Type _} [DecidableEq ε] [DecidableEq α] : DecidableEq (Except ε α) := fun a b =>
  match a, b with
  | .ok x, .ok y =>
    if h : x = y then isTrue (by rw [h])
    else isFalse (fun he => h (Except.ok.inj he))
  | .error x, .error y =>
    if h : x = y then isTrue (by rw [h])
    else isFalse (fun he => h (Except.error.inj he))
  | .ok _, .error _ => isFalse (fun he => Except.noConfusion he)
  | .error _, .ok _ => isFalse (fun he => Except.noConfusion he)

/-- A result list is sorted in descending order of similarity score. -/
def ScoreSortedDesc (l : List (Document × ℚ)) : Prop :=
  l.Pairwise (fun a b => b.2 ≤ a.2)

theorem search_documents_some (vs : VectorStore) (embedq : Except PyExc (List ℚ))
    (simf : List ℚ → List ℚ → Except PyExc ℚ) (top_k : Nat) (thr : ℚ) :
    search_documents (some vs) embedq simf top_k thr
      = match searchBody vs embedq simf top_k thr with
        | .ok r => .ok r
        | .error (.embedding m) => .error (.embedding m)
        | .error (.indexing _) => .ok []
        | .error (.other _) => .ok [] := rfl

theorem searchBody_okq (vs : VectorStore) (q : List ℚ)
    (simf : List ℚ → List ℚ → Except PyExc ℚ) (top_k : Nat) (thr : ℚ) :
    searchBody vs (.ok q) simf top_k thr
      = if vs.indexPresent = false ∨ vs.ntotal = 0 then .ok []
        else
          match scanVectors vs q simf (List.range vs.ntotal) with
          | .error e => .error e
          | .ok pairs => .ok (rankAndFilter pairs top_k thr) := rfl

theorem mem_insertDesc {z x : Document × ℚ} {l : List (Document × ℚ)} :
    z ∈ insertDesc x l ↔ z = x ∨ z ∈ l := by
  induction l with
  | nil => simp [insertDesc]
  | cons y ys ih =>
    by_cases h : x.2 < y.2
    · simp only [insertDesc, if_pos h, List.mem_cons, ih]
      tauto
    · simp only [insertDesc, if_neg h, List.mem_cons]

theorem scoreSortedDesc_insertDesc {x : Document × ℚ} {l : List (Document × ℚ)}
    (h : ScoreSortedDesc l) : ScoreSortedDesc (insertDesc x l) := by
  induction l with
  | nil => simp [ScoreSortedDesc, insertDesc]
  | cons y ys ih =>
    rcases List.pairwise_cons.mp h with ⟨hy, hys⟩
    by_cases hxy : x.2 < y.2
    · simp only [ScoreSortedDesc, insertDesc, if_pos hxy]
      refine List.pairwise_cons.mpr ⟨?_, ih hys⟩
      intro z hz
      rcases mem_insertDesc.mp hz with hzx | hzl
      · rw [hzx]; exact le_of_lt hxy
      · exact hy z hzl
    · simp only [ScoreSortedDesc, insertDesc, if_neg hxy]
      push_neg at hxy
      refine List.pairwise_cons.mpr ⟨?_, h⟩
      intro z hz
      rcases List.mem_cons.mp hz with hzy | hzl
      · rw [hzy]; exact hxy
      · exact le_trans (hy z hzl) hxy

theorem scoreSortedDesc_sortDesc (l : List (Document × ℚ)) :
    ScoreSortedDesc (sortDesc l) := by
  induction l with
  | nil => simp [ScoreSortedDesc, sortDesc]
  | cons x xs ih => exact scoreSortedDesc_insertDesc ih

theorem rankAndFilter_sorted_bounded (pairs : List (Document × ℚ))
    (top_k : Nat) (thr : ℚ) :
    ScoreSortedDesc (rankAndFilter pairs top_k thr)
      ∧ (rankAndFilter pairs top_k thr).length ≤ top_k := by
  have htop : ScoreSortedDesc ((sortDesc pairs).take top_k) :=
    List.Pairwise.sublist (List.take_sublist top_k (sortDesc pairs))
      (scoreSortedDesc_sortDesc pairs)
  have hlen : ∀ p : (Document × ℚ) → Bool,
      (((sortDesc pairs).take top_k).filter p).length ≤ top_k := by
    intro p
    calc (((sortDesc pairs).take top_k).filter p).length
        ≤ ((sortDesc pairs).take top_k).length := List.length_filter_le _ _
      _ ≤ top_k := List.length_take_le _ _
  simp only [rankAndFilter]
  split
  · exact ⟨List.Pairwise.filter _ htop, hlen _⟩
  · exact ⟨List.Pairwise.filter _ htop, hlen _⟩

/-- C7: for every index, query, top_k, and threshold, every list that
search_documents returns is sorted in descending order of similarity score
and contains at most top_k entries: the threshold filters only remove
entries from the top_k prefix of the descending ranking. -/
theorem search_documents_sorted_and_bounded (vector_store : Option VectorStore)
    (embedq : Except PyExc (List ℚ))
    (simf : List ℚ → List ℚ → Except PyExc ℚ)
    (top_k : Nat) (thr : ℚ) (result : List (Document × ℚ))
    (h : search_documents vector_store embedq simf top_k thr = .ok result) :
    ScoreSortedDesc result ∧ result.length ≤ top_k := by
  have hnil : ScoreSortedDesc ([] : List (Document × ℚ)) ∧
      ([] : List (Document × ℚ)).length ≤ top_k :=
    ⟨List.Pairwise.nil, Nat.zero_le _⟩
  cases vector_store with
  | none =>
    have hr : [] = result := Except.ok.inj h
    rw [← hr]; exact hnil
  | some vs =>
    rw [search_documents_some] at h
    cases hb : searchBody vs embedq simf top_k thr with
    | ok r =>
      rw [hb] at h
      have hr : r = result := Except.ok.inj h
      subst hr
      cases embedq with
      | error e => exact absurd hb (by rw [searchBody]; intro hc; exact Except.noConfusion hc)
      | ok q =>
        rw [searchBody_okq] at hb
        by_cases hcond : vs.indexPresent = false ∨ vs.ntotal = 0
        · rw [if_pos hcond] at hb
          have hr2 : [] = r := Except.ok.inj hb
          rw [← hr2]; exact hnil
        · rw [if_neg hcond] at hb
          cases hs : scanVectors vs q simf (List.range vs.ntotal) with
          | error e =>
            rw [hs] at hb
            exact absurd hb (fun hc => Except.noConfusion hc)
          | ok pairs =>
            rw [hs] at hb
            have hr2 : rankAndFilter pairs top_k thr = r := Except.ok.inj hb
            rw [← hr2]
            exact rankAndFilter_sorted_bounded pairs top_k thr
    | error e =>
      rw [hb] at h
      cases e with
      | embedding m => exact absurd h (fun hc => Except.noConfusion hc)
      | indexing m =>
        have hr : [] = result := Except.ok.inj h
        rw [← hr]; exact hnil
      | other m =>
        have hr : [] = result := Except.ok.inj h
        rw [← hr]; exact hnil

/-- Witness for C7 at a concrete one-document store: the single returned
pair is descending-sorted and within top_k = 5. -/
theorem search_documents_sorted_and_bounded_witness :
    ScoreSortedDesc [(⟨"def foo(): pass", [("file_path", "foo.py")]⟩, mkRat 1 2)]
      ∧ ([((⟨"def foo(): pass", [("file_path", "foo.py")]⟩ : Document), mkRat 1 2)]).length ≤ 5 :=
  search_documents_sorted_and_bounded
    (some { indexPresent := true
          , ntotal := 1
          , index_to_docstore_id := fun i => if i = 0 then some "id0" else none
          , docstore := fun s =>
              if s = "id0" then some ⟨"def foo(): pass", [("file_path", "foo.py")]⟩ else none
          , reconstruct := fun i => if i = 0 then some [1] else none })
    (.ok [1]) (fun _ _ => .ok (mkRat 1 2)) 5 (mkRat 9 10) _ (by decide)

/-- C9: searching a store whose underlying index is uninitialized or holds
zero vectors returns the empty list (and raises nothing), for every query
whose embedding the provider delivers. -/
theorem search_documents_zero_vector_index (vs : VectorStore) (q : List ℚ)
    (simf : List ℚ → List ℚ → Except PyExc ℚ) (top_k : Nat) (thr : ℚ)
    (h : vs.indexPresent = false ∨ vs.ntotal = 0) :
    search_documents (some vs) (.ok q) simf top_k thr = .ok [] := by
  rw [search_documents_some, searchBody_okq, if_pos h]

/-- Witness for C9 at a concrete store with an initialized but empty index. -/
theorem search_documents_zero_vector_index_witness :
    search_documents
      (some { indexPresent := true
            , ntotal := 0
            , index_to_docstore_id := fun _ => none
            , docstore := fun _ => none
            , reconstruct := fun _ => none })
      (.ok [1]) (fun _ _ => .ok 1) 5 (mkRat 1 2) = .ok [] :=
  search_documents_zero_vector_index _ _ _ _ _ (Or.inr rfl)

/-- C10: the exception policy of search_documents. An EmbeddingError raised
while embedding the query propagates to the caller unchanged; any other
exception raised after the vector-store check — here, a failure during the
scoring scan, which the per-entry reconstruct handler does not cover — is
caught by the final except clause and turned into the empty list, so such an
internal failure is indistinguishable from a genuinely empty result. -/
theorem search_documents_exception_policy :
    (∀ (vs : VectorStore) (simf : List ℚ → List ℚ → Except PyExc ℚ)
       (top_k : Nat) (thr : ℚ) (m : String),
       search_documents (some vs) (.error (.embedding m)) simf top_k thr
         = .error (.embedding m))
    ∧ (∀ (vs : VectorStore) (q : List ℚ)
         (simf : List ℚ → List ℚ → Except PyExc ℚ)
         (top_k : Nat) (thr : ℚ) (e : PyExc),
         vs.indexPresent = true → vs.ntotal ≠ 0 →
         scanVectors vs q simf (List.range vs.ntotal) = .error e →
         (∀ m, e ≠ PyExc.embedding m) →
         search_documents (some vs) (.ok q) simf top_k thr = .ok []) := by
  constructor
  · intro vs simf top_k thr m
    rfl
  · intro vs q simf top_k thr e hpres hnz hscan hne
    have hcond : ¬(vs.indexPresent = false ∨ vs.ntotal = 0) := by
      intro hc
      rcases hc with hc | hc
      · rw [hpres] at hc; exact Bool.noConfusion hc
      · exact hnz hc
    rw [search_documents_some, searchBody_okq, if_neg hcond, hscan]
    cases e with
    | embedding m => exact absurd rfl (hne m)
    | indexing m => rfl
    | other m => rfl

/-- Witness for C10: an EmbeddingError from embedding the query propagates
out of a concrete search; a scan failure on the same store is swallowed into
the empty list. -/
theorem search_documents_exception_policy_witness :
    search_documents
      (some { indexPresent := true
            , ntotal := 1
            , index_to_docstore_id := fun i => if i = 0 then some "id0" else none
            , docstore := fun s =>
                if s = "id0" then some ⟨"def foo(): pass", [("file_path", "foo.py")]⟩ else none
            , reconstruct := fun i => if i = 0 then some [1] else none })
      (.error (.embedding "쿼리 임베딩 실패")) (fun _ _ => .ok 1) 3 (mkRat 1 2)
      = .error (.embedding "쿼리 임베딩 실패")
    ∧ search_documents
      (some { indexPresent := true
            , ntotal := 1
            , index_to_docstore_id := fun i => if i = 0 then some "id0" else none
            , docstore := fun s =>
                if s = "id0" then some ⟨"def foo(): pass", [("file_path", "foo.py")]⟩ else none
            , reconstruct := fun i => if i = 0 then some [1] else none })
      (.ok [1]) (fun _ _ => .error (.other "numpy 오류")) 3 (mkRat 1 2)
      = .ok [] :=
  ⟨search_documents_exception_policy.1 _ _ 3 (mkRat 1 2) "쿼리 임베딩 실패",
   search_documents_exception_policy.2 _ [1] _ 3 (mkRat 1 2) (.other "numpy 오류")
     rfl (by decide) (by decide) (fun m hm => PyExc.noConfusion hm)⟩

theorem rankAndFilter_relaxes (pairs : List (Document × ℚ)) (top_k : Nat)
    (thr : ℚ) (hthr : relaxThreshold < thr)
    (hempty : ((sortDesc pairs).take top_k).filter (fun p => decide (thr ≤ p.2)) = [])
    (hne : (sortDesc pairs).take top_k ≠ []) :
    rankAndFilter pairs top_k thr
      = ((sortDesc pairs).take top_k).filter (fun p => decide (relaxThreshold ≤ p.2)) := by
  simp only [rankAndFilter]
  rw [if_pos ⟨hempty, hthr, hne⟩]

theorem rankAndFilter_at_relax (pairs : List (Document × ℚ)) (top_k : Nat) :
    rankAndFilter pairs top_k relaxThreshold
      = ((sortDesc pairs).take top_k).filter (fun p => decide (relaxThreshold ≤ p.2)) := by
  simp only [rankAndFilter]
  rw [if_neg]
  intro hc
  exact absurd hc.2.1 (lt_irrefl relaxThreshold)

/-- C1: the threshold-relaxation policy. When the top_k candidate list is
non-empty, the caller's threshold exceeds 0.1, and filtering the top_k
(document, score) pairs by that threshold yields nothing, search_documents
refilters the same top_k prefix once at the fixed fallback threshold 0.1 and
returns the pairs scoring at least 0.1 — the same result the caller would
get by searching with the threshold 0.1 directly. -/
theorem search_documents_threshold_relaxation (vs : VectorStore) (q : List ℚ)
    (simf : List ℚ → List ℚ → Except PyExc ℚ) (top_k : Nat) (thr : ℚ)
    (pairs : List (Document × ℚ))
    (hpres : vs.indexPresent = true) (hnz : vs.ntotal ≠ 0)
    (hscan : scanVectors vs q simf (List.range vs.ntotal) = .ok pairs)
    (hthr : relaxThreshold < thr)
    (hempty : ((sortDesc pairs).take top_k).filter (fun p => decide (thr ≤ p.2)) = [])
    (hne : (sortDesc pairs).take top_k ≠ []) :
    search_documents (some vs) (.ok q) simf top_k thr
      = .ok (((sortDesc pairs).take top_k).filter (fun p => decide (relaxThreshold ≤ p.2)))
    ∧ search_documents (some vs) (.ok q) simf top_k thr
      = search_documents (some vs) (.ok q) simf top_k relaxThreshold := by
  have hcond : ¬(vs.indexPresent = false ∨ vs.ntotal = 0) := by
    intro hc
    rcases hc with hc | hc
    · rw [hpres] at hc; exact Bool.noConfusion hc
    · exact hnz hc
  have h1 : search_documents (some vs) (.ok q) simf top_k thr
      = .ok (((sortDesc pairs).take top_k).filter (fun p => decide (relaxThreshold ≤ p.2))) := by
    rw [search_documents_some, searchBody_okq, if_neg hcond, hscan]
    exact congrArg Except.ok (rankAndFilter_relaxes pairs top_k thr hthr hempty hne)
  have h2 : search_documents (some vs) (.ok q) simf top_k relaxThreshold
      = .ok (((sortDesc pairs).take top_k).filter (fun p => decide (relaxThreshold ≤ p.2))) := by
    rw [search_documents_some, searchBody_okq, if_neg hcond, hscan]
    exact congrArg Except.ok (rankAndFilter_at_relax pairs top_k)
  exact ⟨h1, h1.trans h2.symm⟩

/-- Witness for C1: a store with a single document whose best match scores
0.5; searching with top_k = 5 and threshold 0.9 returns that single best
match, the same result as searching with threshold 0.1. -/
theorem search_documents_threshold_relaxation_witness :
    search_documents
      (some { indexPresent := true
            , ntotal := 1
            , index_to_docstore_id := fun i => if i = 0 then some "id0" else none
            , docstore := fun s =>
                if s = "id0" then some ⟨"def foo(): pass", [("file_path", "foo.py")]⟩ else none
            , reconstruct := fun i => if i = 0 then some [1] else none })
      (.ok [1]) (fun _ _ => .ok (mkRat 1 2)) 5 (mkRat 9 10)
      = .ok [(⟨"def foo(): pass", [("file_path", "foo.py")]⟩, mkRat 1 2)]
    ∧ search_documents
      (some { indexPresent := true
            , ntotal := 1
            , index_to_docstore_id := fun i => if i = 0 then some "id0" else none
            , docstore := fun s =>
                if s = "id0" then some ⟨"def foo(): pass", [("file_path", "foo.py")]⟩ else none
            , reconstruct := fun i => if i = 0 then some [1] else none })
      (.ok [1]) (fun _ _ => .ok (mkRat 1 2)) 5 (mkRat 9 10)
      = search_documents
      (some { indexPresent := true
            , ntotal := 1
            , index_to_docstore_id := fun i => if i = 0 then some "id0" else none
            , docstore := fun s =>
                if s = "id0" then some ⟨"def foo(): pass", [("file_path", "foo.py")]⟩ else none
            , reconstruct := fun i => if i = 0 then some [1] else none })
      (.ok [1]) (fun _ _ => .ok (mkRat 1 2)) 5 (mkRat 1 10) := by
  have h := search_documents_threshold_relaxation
    { indexPresent := true
    , ntotal := 1
    , index_to_docstore_id := fun i => if i = 0 then some "id0" else none
    , docstore := fun s =>
        if s = "id0" then some ⟨"def foo(): pass", [("file_path", "foo.py")]⟩ else none
    , reconstruct := fun i => if i = 0 then some [1] else none }
    [1] (fun _ _ => .ok (mkRat 1 2)) 5 (mkRat 9 10)
    [(⟨"def foo(): pass", [("file_path", "foo.py")]⟩, mkRat 1 2)]
    rfl (by decide) (by decide) (by decide) (by decide) (by decide)
  refine ⟨?_, ?_⟩
  · rw [h.1]; decide
  · exact h.2

/-- C6: load_index returns None when no index exists at the location and
when the on-disk state is corrupt or unreadable, which makes
FAISS.load_local raise; the Option return type of the embedding records
that no exception ever escapes load_index to its caller. -/
theorem load_index_none_on_missing_or_corrupt :
    (∀ r : Except PyExc BuiltStore, load_index false r = none)
    ∧ (∀ e : PyExc, load_index true (.error e) = none) :=
  ⟨fun _ => rfl, fun _ => rfl⟩

theorem all_indices_failed_iff (fis : List Nat) (n : Nat)
    (hnd : fis.Nodup) (hlt : ∀ i ∈ fis, i < n) :
    fis.length = n ↔ ∀ i < n, i ∈ fis := by
  have hsub : fis.toFinset ⊆ Finset.range n := by
    intro x hx
    exact Finset.mem_range.mpr (hlt x (List.mem_toFinset.mp hx))
  have hcard : fis.toFinset.card = fis.length := List.toFinset_card_of_nodup hnd
  constructor
  · intro hlen i hi
    have heq : fis.toFinset = Finset.range n := by
      apply Finset.eq_of_subset_of_card_le hsub
      rw [Finset.card_range, hcard, hlen]
    have : i ∈ fis.toFinset := by
      rw [heq]; exact Finset.mem_range.mpr hi
    exact List.mem_toFinset.mp this
  · intro hall
    have hsub2 : Finset.range n ⊆ fis.toFinset := by
      intro x hx
      exact List.mem_toFinset.mpr (hall x (Finset.mem_range.mp hx))
    have heq : fis.toFinset = Finset.range n :=
      Finset.Subset.antisymm hsub hsub2
    rw [← hcard, heq, Finset.card_range]

theorem create_index_empty_batch (embed_documents_result : Except PyExc (Option (List (List ℚ) × List Nat)))
    (assembleOk saveOk : Bool) (itype : String) :
    create_index_from_documents [] embed_documents_result assembleOk saveOk itype = .ok none := rfl

theorem create_index_all_embeddings_failed (d : Document) (ds : List Document)
    (fis : List Nat) (assembleOk saveOk : Bool) (itype : String) :
    create_index_from_documents (d :: ds) (.ok (some ([], fis))) assembleOk saveOk itype
      = .ok none := rfl

theorem create_index_success (d : Document) (ds : List Document)
    (e : List ℚ) (es : List (List ℚ)) (fis : List Nat) (itype : String) :
    create_index_from_documents (d :: ds) (.ok (some (e :: es, fis))) true true itype
      = .ok (some (FAISSFromEmbeddings
          (((filterSuccessfulDocuments (d :: ds) fis).zip (e :: es)).map
             (fun p => (p.1.page_content, p.2)))
          ((filterSuccessfulDocuments (d :: ds) fis).map (·.metadata)))) := rfl

/-- C5: with the provider call returning a well-formed
(embeddings, failed indices) pair that respects its contract — distinct
failed indices within range, one vector per non-failed document — and with
assembly and persistence succeeding, build returns None exactly when the
batch is empty or every document in it failed to embed (no error raised in
either case), and in every other case it returns a vector store. -/
theorem create_index_none_iff (documents : List Document)
    (eds : List (List ℚ)) (fis : List Nat) (itype : String)
    (hnd : fis.Nodup) (hlt : ∀ i ∈ fis, i < documents.length)
    (hcount : eds.length + fis.length = documents.length) :
    (create_index_from_documents documents (.ok (some (eds, fis))) true true itype = .ok none
       ↔ documents = [] ∨ ∀ i < documents.length, i ∈ fis)
    ∧ (documents ≠ [] → eds ≠ [] →
        ∃ store, create_index_from_documents documents (.ok (some (eds, fis))) true true itype
          = .ok (some store)) := by
  cases documents with
  | nil =>
    refine ⟨⟨fun _ => Or.inl rfl, fun _ => rfl⟩, fun hd _ => absurd rfl hd⟩
  | cons d ds =>
    have hdne : (d :: ds) ≠ [] := by simp
    have hiff2 : eds = [] ↔ ∀ i < (d :: ds).length, i ∈ fis := by
      constructor
      · intro he
        apply (all_indices_failed_iff fis (d :: ds).length hnd hlt).mp
        rw [he] at hcount
        simpa using hcount
      · intro hf
        have hlen := (all_indices_failed_iff fis (d :: ds).length hnd hlt).mpr hf
        have hz : eds.length = 0 := by omega
        exact List.eq_nil_of_length_eq_zero hz
    constructor
    · constructor
      · intro hok
        refine Or.inr (hiff2.mp ?_)
        cases eds with
        | nil => rfl
        | cons e es =>
          rw [create_index_success d ds e es fis itype] at hok
          exact absurd (Except.ok.inj hok) (fun hc => Option.noConfusion hc)
      · intro h
        rcases h with h | h
        · exact absurd h hdne
        · rw [hiff2.mpr h]
          exact create_index_all_embeddings_failed d ds fis true true itype
    · intro _ hne
      cases eds with
      | nil => exact absurd rfl hne
      | cons e es => exact ⟨_, create_index_success d ds e es fis itype⟩

/-- Witness for C5: a two-document batch where the second document fails to
embed builds a store (not None), and the same batch with every index failed
yields None. -/
theorem create_index_none_iff_witness :
    (create_index_from_documents
        [⟨"def foo(): pass", []⟩, ⟨"def bar(): return 1", []⟩]
        (.ok (some ([[1, 0]], [1]))) true true "code" = .ok none
      ↔ ([(⟨"def foo(): pass", []⟩ : Document), ⟨"def bar(): return 1", []⟩] = []
          ∨ ∀ i < ([(⟨"def foo(): pass", []⟩ : Document), ⟨"def bar(): return 1", []⟩]).length,
              i ∈ [1]))
    ∧ ([(⟨"def foo(): pass", []⟩ : Document), ⟨"def bar(): return 1", []⟩] ≠ [] →
        ([[(1 : ℚ), 0]] : List (List ℚ)) ≠ [] →
        ∃ store, create_index_from_documents
          [⟨"def foo(): pass", []⟩, ⟨"def bar(): return 1", []⟩]
          (.ok (some ([[1, 0]], [1]))) true true "code" = .ok (some store)) :=
  create_index_none_iff
    [⟨"def foo(): pass", []⟩, ⟨"def bar(): return 1", []⟩]
    [[1, 0]] [1] "code" (by decide) (by decide) (by decide)

theorem FAISSFromEmbeddings_zip (docs : List Document) (eds : List (List ℚ))
    (h : docs.length = eds.length) :
    FAISSFromEmbeddings ((docs.zip eds).map (fun p => (p.1.page_content, p.2)))
      (docs.map (·.metadata)) = ⟨docs, eds⟩ := by
  induction docs generalizing eds with
  | nil =>
    cases eds with
    | nil => rfl
    | cons e es => exact absurd h (by simp)
  | cons d ds ih =>
    cases eds with
    | nil => exact absurd h (by simp)
    | cons e es =>
      have hlen : ds.length = es.length := by
        simpa using h
      have ih2 := ih es hlen
      unfold List.zip at ih2
      simp only [List.zip_cons_cons, List.map_cons, FAISSFromEmbeddings, ih2]

/-- C2: under the provider contract — one embedding per non-failed original
index, in input order, each of the provider's declared dimension — build
returns a store whose docstore size equals its vector count, whose docstore
is exactly the surviving documents in original order (metadata carried),
whose vectors are exactly the provider's embeddings paired positionally,
and all of whose vectors have the declared dimension. -/
theorem create_index_docstore_consistency (documents : List Document)
    (eds : List (List ℚ)) (fis : List Nat) (itype : String) (dim : Nat)
    (hne : eds ≠ [])
    (hlen : (filterSuccessfulDocuments documents fis).length = eds.length)
    (hdim : ∀ v ∈ eds, v.length = dim) :
    ∃ store : BuiltStore,
      create_index_from_documents documents (.ok (some (eds, fis))) true true itype
        = .ok (some store)
      ∧ store.docs = filterSuccessfulDocuments documents fis
      ∧ store.vectors = eds
      ∧ store.docs.length = store.vectors.length
      ∧ ∀ v ∈ store.vectors, v.length = dim := by
  cases documents with
  | nil =>
    exfalso
    apply hne
    have hz : (filterSuccessfulDocuments [] fis).length = 0 := rfl
    rw [hz] at hlen
    exact List.eq_nil_of_length_eq_zero hlen.symm
  | cons d ds =>
    cases eds with
    | nil => exact absurd rfl hne
    | cons e es =>
      refine ⟨⟨filterSuccessfulDocuments (d :: ds) fis, e :: es⟩, ?_, rfl, rfl, hlen, hdim⟩
      rw [create_index_success d ds e es fis itype,
        FAISSFromEmbeddings_zip _ _ hlen]

/-- Witness for C2: a two-document batch whose second document fails to
embed; the built store holds exactly the surviving first document paired
with its two-dimensional embedding. -/
theorem create_index_docstore_consistency_witness :
    ∃ store : BuiltStore,
      create_index_from_documents
          [⟨"def foo(): pass", [("file_path", "foo.py")]⟩, ⟨"def bar(): return 1", []⟩]
          (.ok (some ([[1, 0]], [1]))) true true "code"
        = .ok (some store)
      ∧ store.docs = filterSuccessfulDocuments
          [⟨"def foo(): pass", [("file_path", "foo.py")]⟩, ⟨"def bar(): return 1", []⟩] [1]
      ∧ store.vectors = [[1, 0]]
      ∧ store.docs.length = store.vectors.length
      ∧ ∀ v ∈ store.vectors, v.length = 2 :=
  create_index_docstore_consistency
    [⟨"def foo(): pass", [("file_path", "foo.py")]⟩, ⟨"def bar(): return 1", []⟩]
    [[1, 0]] [1] "code" 2 (by decide) (by decide) (by decide)

theorem strContains_append_right (a b pat : String)
    (h : strContains b pat = true) : strContains (a ++ b) pat = true := by
  unfold strContains at h ⊢
  rw [List.any_eq_true] at h ⊢
  obtain ⟨i, hi, hpf⟩ := h
  refine ⟨a.length + i, ?_, ?_⟩
  · rw [List.mem_range] at hi ⊢
    rw [String.length_append]
    omega
  · rw [String.data_append]
    have ha : a.length = a.data.length := rfl
    rw [ha, List.drop_append]
    exact hpf

/-- Counterexample to C3 as stated: a provider-level embedding failure (the
embed_documents call raising) does not escape build as an EmbeddingError.
The final except clause of create_index_from_documents catches every
exception of the try block — the EmbeddingError re-raised by
_generate_embeddings included — and raises IndexingError instead, so the
exception type escaping build is IndexingError. -/
theorem create_index_wraps_embedding_error :
    create_index_from_documents [⟨"def foo(): pass", []⟩]
        (.error (.embedding "Gemini API 호출 실패: 네트워크 오류")) true true "code"
      = .error (.indexing "code 인덱스 생성 실패")
    ∧ isEmbeddingErrorResult (create_index_from_documents [⟨"def foo(): pass", []⟩]
        (.error (.embedding "Gemini API 호출 실패: 네트워크 오류")) true true "code")
      = false := by
  constructor
  · rfl
  · rfl

/-- C3 amended: _generate_embeddings raises EmbeddingError for every
provider-level failure (whether the provider raised EmbeddingError itself or
any other exception), always carrying the actionable solution text; but
every failure that escapes build — assembly and persistence failures
included — is an IndexingError, because the final except clause of
create_index_from_documents re-raises everything as IndexingError, so the
caller of build cannot distinguish the failure kinds by the escaping
exception type. -/
theorem create_index_failure_taxonomy :
    (∀ (documents : List Document)
       (embed_documents_result : Except PyExc (Option (List (List ℚ) × List Nat)))
       (assembleOk saveOk : Bool) (itype : String) (e : PyExc),
       create_index_from_documents documents embed_documents_result assembleOk saveOk itype
         = .error e →
       ∃ m, e = PyExc.indexing m)
    ∧ (∀ m : String, ∃ m2 : String,
        generateEmbeddings (.error (.embedding m)) = .error (.embedding m2)
        ∧ strContains m2 solutionMarker = true)
    ∧ (∀ m : String, ∃ m2 : String,
        generateEmbeddings (.error (.other m)) = .error (.embedding m2)
        ∧ strContains m2 solutionMarker = true) := by
  refine ⟨?_, ?_, ?_⟩
  · intro documents embed_documents_result assembleOk saveOk itype e h
    unfold create_index_from_documents at h
    by_cases hd : documents.isEmpty = true
    · rw [if_pos hd] at h
      exact absurd h (fun hc => Except.noConfusion hc)
    · rw [if_neg hd] at h
      refine ⟨itype ++ " 인덱스 생성 실패", ?_⟩
      cases hb : (match generateEmbeddings embed_documents_result with
        | .error e => .error e
        | .ok (embeddings_data, failed_indices) =>
          if embeddings_data.isEmpty then .ok none
          else
            match createFaissVectorStore
                (filterSuccessfulDocuments documents failed_indices)
                embeddings_data assembleOk with
            | .error e => .error e
            | .ok vector_store =>
              match saveIndex saveOk with
              | .error e => .error e
              | .ok _ => .ok (some vector_store) :
          Except PyExc (Option BuiltStore)) with
      | ok r =>
        rw [hb] at h
        exact absurd h (fun hc => Except.noConfusion hc)
      | error e2 =>
        rw [hb] at h
        exact (Except.error.inj h).symm
  · intro m
    refine ⟨enrichEmbeddingMessage m, rfl, ?_⟩
    unfold enrichEmbeddingMessage
    by_cases hm : strContains m solutionMarker = true
    · rw [if_pos hm]; exact hm
    · rw [if_neg hm]
      exact strContains_append_right m extraSolutionText solutionMarker (by decide)
  · intro m
    refine ⟨unexpectedEmbeddingMessage m, rfl, ?_⟩
    unfold unexpectedEmbeddingMessage
    rw [String.append_assoc]
    exact strContains_append_right unexpectedEmbedIntro (m ++ unexpectedEmbedTail)
      solutionMarker
      (strContains_append_right m unexpectedEmbedTail solutionMarker (by decide))

/-- Witness for C3's amended taxonomy at concrete inputs: the escaping
error of a failed build is an IndexingError, and a provider failure turns
into an EmbeddingError with solution text inside _generate_embeddings. -/
theorem create_index_failure_taxonomy_witness :
    (∃ m, PyExc.indexing "code 인덱스 생성 실패" = PyExc.indexing m)
    ∧ (∃ m2 : String,
        generateEmbeddings (.error (.other "연결 시간 초과")) = .error (.embedding m2)
        ∧ strContains m2 solutionMarker = true) :=
  ⟨create_index_failure_taxonomy.1 [⟨"def foo(): pass", []⟩]
      (.error (.other "연결 시간 초과")) true true "code"
      (PyExc.indexing "code 인덱스 생성 실패") (by decide),
   create_index_failure_taxonomy.2.2 "연결 시간 초과"⟩

/-- C8: a repository key whose index location holds no loadable persisted
index makes the search endpoint answer 404 with error code INDEX_NOT_FOUND
(the orchestrator starts no indexing pipeline), makes issue analysis answer
404, and this outcome differs from the one a repository with job status
indexing gets from the status endpoint, which is 202. -/
theorem index_not_found_outcome (load_result : Option BuiltStore)
    (analysis_code : Nat) (record_error_code : Option String)
    (h : load_result = none) :
    repositorySearchPost (searchRepositoryCall load_result).1
      = ⟨404, some "INDEX_NOT_FOUND"⟩
    ∧ (searchRepositoryCall load_result).2 = false
    ∧ analyzeIssueStatusCode load_result analysis_code = 404
    ∧ (getRepositoryStatusOutcome "indexing" record_error_code).status_code = 202
    ∧ (getRepositoryStatusOutcome "indexing" record_error_code).status_code ≠ 404 := by
  subst h
  have hstatus : getRepositoryStatusOutcome "indexing" record_error_code = ⟨202, none⟩ := by
    unfold getRepositoryStatusOutcome
    rw [if_neg (by decide), if_neg (by decide), if_pos (by decide)]
  refine ⟨rfl, rfl, rfl, ?_, ?_⟩
  · rw [hstatus]
  · rw [hstatus]
    decide

/-- Witness for C8 with a missing index, a successful-analysis code of 200
and no recorded error code. -/
theorem index_not_found_outcome_witness :
    repositorySearchPost (searchRepositoryCall none).1
      = ⟨404, some "INDEX_NOT_FOUND"⟩
    ∧ (searchRepositoryCall (none : Option BuiltStore)).2 = false
    ∧ analyzeIssueStatusCode none 200 = 404
    ∧ (getRepositoryStatusOutcome "indexing" none).status_code = 202
    ∧ (getRepositoryStatusOutcome "indexing" none).status_code ≠ 404 :=
  index_not_found_outcome none 200 none rfl

/-- C4: starting from any machine state with no record for a repository
key, two requestIndexing calls for that key — which the atomic
check-and-create step of the specification serializes even when the
requests race — produce exactly one pipeline launch: the first call creates
the record in pending and reports a new request, the second returns the
same record unchanged, reports a non-new request, leaves the whole state
untouched, and launches no further pipeline. -/
theorem request_indexing_idempotent (s : MachineState) (key : String)
    (h : lookupJob s key = none) :
    (requestIndexing s key).2.is_new_request = true
    ∧ (requestIndexing s key).2.record.status = JobStatus.pending
    ∧ (requestIndexing (requestIndexing s key).1 key).2.is_new_request = false
    ∧ (requestIndexing (requestIndexing s key).1 key).2.record
        = (requestIndexing s key).2.record
    ∧ (requestIndexing (requestIndexing s key).1 key).1 = (requestIndexing s key).1
    ∧ startedCount (requestIndexing (requestIndexing s key).1 key).1 key
        = startedCount s key + 1 := by
  have h1 : requestIndexing s key
      = (⟨(key, ⟨.pending, 0⟩) :: s.jobs, key :: s.started_pipelines⟩,
         ⟨⟨.pending, 0⟩, true⟩) := by
    unfold requestIndexing
    rw [h]
  have hlook : lookupJob
      (⟨(key, ⟨.pending, 0⟩) :: s.jobs, key :: s.started_pipelines⟩ : MachineState) key
      = some ⟨.pending, 0⟩ := by
    unfold lookupJob
    simp [List.find?]
  have h2 : requestIndexing
      (⟨(key, ⟨.pending, 0⟩) :: s.jobs, key :: s.started_pipelines⟩ : MachineState) key
      = (⟨(key, ⟨.pending, 0⟩) :: s.jobs, key :: s.started_pipelines⟩,
         ⟨⟨.pending, 0⟩, false⟩) := by
    unfold requestIndexing
    rw [hlook]
  have hcount : startedCount
      (⟨(key, ⟨.pending, 0⟩) :: s.jobs, key :: s.started_pipelines⟩ : MachineState) key
      = startedCount s key + 1 := by
    unfold startedCount
    simp [List.filter]
  refine ⟨?_, ?_, ?_, ?_, ?_, ?_⟩ <;> simp [h1, h2, hcount]

/-- Witness for C4 from the empty machine state and a concrete key. -/
theorem request_indexing_idempotent_witness :
    (requestIndexing ⟨[], []⟩ "octocat/hello-world").2.is_new_request = true
    ∧ (requestIndexing ⟨[], []⟩ "octocat/hello-world").2.record.status = JobStatus.pending
    ∧ (requestIndexing (requestIndexing ⟨[], []⟩ "octocat/hello-world").1
        "octocat/hello-world").2.is_new_request = false
    ∧ (requestIndexing (requestIndexing ⟨[], []⟩ "octocat/hello-world").1
        "octocat/hello-world").2.record
        = (requestIndexing ⟨[], []⟩ "octocat/hello-world").2.record
    ∧ (requestIndexing (requestIndexing ⟨[], []⟩ "octocat/hello-world").1
        "octocat/hello-world").1 = (requestIndexing ⟨[], []⟩ "octocat/hello-world").1
    ∧ startedCount (requestIndexing (requestIndexing ⟨[], []⟩ "octocat/hello-world").1
        "octocat/hello-world").1 "octocat/hello-world"
        = startedCount ⟨[], []⟩ "octocat/hello-world" + 1 :=
  request_indexing_idempotent ⟨[], []⟩ "octocat/hello-world" rfl
